import Mathlib

/-!
Verification development for the `ml-tto` repository.

Shallow embedding of:
* `ml_tto/automatic_emittance/image_projection_fit.py`
  (`MLProjectionFit.model_setup`, `ImageProjectionFit._fit_image`,
  `RecursiveImageProjectionFit._fit_image`), and
* `ml_tto/saver.py` (`H5Saver.save_to_h5`, `H5Saver.load_from_h5`).

Python/numpy floats are modelled as `Option ℚ` with `none` playing the
role of NaN (IEEE comparisons against NaN are false, arithmetic with NaN
is NaN).  The external 1d fit model (lcls-tools `GaussianModel` /
`ProjectionFit.fit_projection`, explicitly out of scope of the spec) is
modelled as an abstract pair of functions `fit` and `forward`, and
scipy's `gaussian_filter1d` as an abstract function `G`.
-/

/-- A Python float value: `none` models NaN. -/
abbrev RVal := Option ℚ

/-- Float addition: NaN propagates. -/
def rAdd : RVal → RVal → RVal
  | some a, some b => some (a + b)
  | _, _ => none

/-- Float subtraction: NaN propagates. -/
def rSub : RVal → RVal → RVal
  | some a, some b => some (a - b)
  | _, _ => none

/-- Multiplication of a float by a (non-NaN) scalar: NaN propagates. -/
def rMulQ (c : ℚ) : RVal → RVal
  | some a => some (c * a)
  | none => none

/-- Python `int(x)` / numpy `.astype(int)` on a finite float:
truncation toward zero. -/
def pyInt (q : ℚ) : ℤ :=
  if 0 ≤ q then ⌊q⌋ else -⌊-q⌋

/-- `.astype(int)` on a possibly-NaN value.  numpy's NaN-to-int cast is
platform-defined garbage; we model it as 0.  Every theorem below that
looks at a bounding box assumes a numeric (non-NaN) centroid, so this
choice is never observed. -/
def pyIntR : RVal → ℤ
  | some q => pyInt q
  | none => 0

/-- `np.clip(x, lo, hi)` on integers (numpy applies the lower bound
first, then the upper bound). -/
def clipZ (lo hi x : ℤ) : ℤ :=
  min (max x lo) hi

/-- The named parameters returned by the external 1d fit
(lcls-tools `GaussianModel`: amplitude, mean, sigma, offset).
`params[name]` lookups in the source touch exactly these keys, and
`for name in params.keys()` iterates over all of them. -/
structure FitParams where
  amplitude : RVal
  mean : RVal
  sigma : RVal
  offset : RVal
deriving DecidableEq

/-- `{name: np.nan for name in params.keys()}` — every parameter NaN. -/
def nanParams : FitParams :=
  { amplitude := none, mean := none, sigma := none, offset := none }

/-- The external pluggable fit-model capability (out of scope of the
spec): `fit` maps a 1d profile to named parameters, `forward` evaluates
the fitted curve at given coordinates (it may produce NaN). -/
structure FitModel where
  fit : List ℚ → FitParams
  forward : List ℚ → FitParams → List RVal

/-- `MLProjectionFit.model_setup`: compute
`filter_size = int(len(projection_data) * relative_filter_size)`; when
positive, smooth the data with scipy's `gaussian_filter1d` (modelled by
the abstract `G`, second argument the filter width) before it is stored
on the model as `profile_data`.  The returned list is the data handed to
the model. -/
def model_setup (G : List ℚ → ℕ → List ℚ) (relative_filter_size : ℚ)
    (projection_data : List ℚ) : List ℚ :=
  let filter_size : ℤ := pyInt ((projection_data.length : ℚ) * relative_filter_size)
  if 0 < filter_size then G projection_data filter_size.toNat else projection_data

/-- `ProjectionFit.fit_projection` as used here: smooth via
`model_setup`, then delegate to the external model. -/
def fit_projection (m : FitModel) (G : List ℚ → ℕ → List ℚ)
    (relative_filter_size : ℚ) (data : List ℚ) : FitParams :=
  m.fit (model_setup G relative_filter_size data)

/-- A 2d numpy array of intensities, indexed `[row, col]`
(`shape = (rows, cols)`). -/
structure NDImage where
  rows : ℕ
  cols : ℕ
  px : ℕ → ℕ → ℚ

/-- `np.sum(image, axis=0)`: column sums; length = number of columns. -/
def x_projection (img : NDImage) : List ℚ :=
  (List.range img.cols).map fun j =>
    ((List.range img.rows).map fun i => img.px i j).sum

/-- `np.sum(image, axis=1)`: row sums; length = number of rows. -/
def y_projection (img : NDImage) : List ℚ :=
  (List.range img.rows).map fun i =>
    ((List.range img.cols).map fun j => img.px i j).sum

/-- `image.sum()`. -/
def isum (img : NDImage) : ℚ :=
  (y_projection img).sum

/-- `image[r1:r2, c1:c2]` for nonnegative bounds: Python slice
semantics (indices are clamped to the extent; an inverted or collapsed
range yields an empty axis). -/
def cropImage (img : NDImage) (r1 r2 c1 c2 : ℕ) : NDImage :=
  { rows := min r2 img.rows - min r1 img.rows
  , cols := min c2 img.cols - min c1 img.cols
  , px := fun i j => img.px (min r1 img.rows + i) (min c1 img.cols + j) }

/-- `np.arange(n)` as rationals. -/
def npIdx (n : ℕ) : List ℚ :=
  (List.range n).map fun i => (i : ℚ)

/-- `self.projection_fit.model.forward(np.arange(len(proj)), params) - proj`. -/
def residuals (m : FitModel) (proj : List ℚ) (p : FitParams) : List RVal :=
  List.zipWith rSub (m.forward (npIdx proj.length) p) (proj.map some)

/-- `np.mean` of a list of rationals. -/
def listMean (l : List ℚ) : ℚ :=
  l.sum / l.length

/-- `np.var` (population variance) of a list of rationals. -/
def listVar (l : List ℚ) : ℚ :=
  ((l.map fun x => (x - listMean l) ^ 2).sum) / l.length

/-- Extract all values of a float list when none of them is NaN. -/
def allSomeList : List RVal → Option (List ℚ)
  | [] => some []
  | none :: _ => none
  | some a :: rest => (allSomeList rest).map fun l => a :: l

/-- The *square* of `np.std`: `np.std` of an empty array or of an array
containing NaN is NaN (`none`); otherwise the population variance of the
values.  (`noise_std` itself is the real square root of this; the
comparison in the source is expressed below through
`snr_reject`, which is proved equivalent to the square-root comparison
in `snr_reject_iff_sqrt`.) -/
def noiseVar (l : List RVal) : RVal :=
  match allSomeList l with
  | none => none
  | some [] => none
  | some vals => some (listVar vals)

/-- `params["amplitude"] < noise_std * self.signal_to_noise_threshold`
with `noise_std = sqrt v`, decided over ℚ: for a nonnegative variance
`v` and positive threshold this Boolean equals the IEEE comparison
(false whenever either operand is NaN); see `snr_reject_iff_sqrt`. -/
def snr_reject (amp : RVal) (nv : RVal) (thr : ℚ) : Bool :=
  match amp, nv with
  | some a, some v => decide (a < 0) || (decide (0 ≤ a) && decide (a ^ 2 < v * thr ^ 2))
  | _, _ => false

/-- `self.max_sigma_to_image_size_ratio * params["sigma"] > len(projections[i])`
(false whenever sigma is NaN). -/
def size_reject (sigma : RVal) (ratio_limit : ℚ) (n : ℕ) : Bool :=
  match sigma with
  | some s => decide ((n : ℚ) < ratio_limit * s)
  | none => false

/-- The warning text for a low-amplitude rejection on axis `d`. -/
def lowAmpMsg (d : String) : String :=
  "Projection in " ++ d ++ " had a low amplitude relative to noise"

/-- The warning text for an oversized-sigma rejection on axis `d`. -/
def tooBigMsg (d : String) : String :=
  "Projection in " ++ d ++ " was too big relative to projection span"

/-- The validation loop body of `ImageProjectionFit._fit_image` for one
axis: first the signal-to-noise check (on rejection every parameter is
set to NaN, a warning naming the axis is emitted and the size check is
skipped via `continue`), then the size check. -/
def validate (m : FitModel) (thr ratio_limit : ℚ) (d : String)
    (proj : List ℚ) (p : FitParams) : FitParams × List String :=
  if snr_reject p.amplitude (noiseVar (residuals m proj p)) thr then
    (nanParams, [lowAmpMsg d])
  else if size_reject p.sigma ratio_limit proj.length then
    (nanParams, [tooBigMsg d])
  else
    (p, [])

/-- The configuration fields of the pipeline, with their source
defaults: `relative_filter_size = 0.01` (on the default
`MLProjectionFit` used by `ImageProjectionFit`),
`signal_to_noise_threshold = 4.0`,
`max_sigma_to_image_size_ratio = 2.0` (field `max_sigma_to_image_size`
here), `n_stds = 4.0`. -/
structure FitConfig where
  relative_filter_size : ℚ
  signal_to_noise_threshold : ℚ
  max_sigma_to_image_size : ℚ
  n_stds : ℚ

/-- The source's default configuration. -/
def defaultConfig : FitConfig :=
  { relative_filter_size := 1 / 100
  , signal_to_noise_threshold := 4
  , max_sigma_to_image_size := 2
  , n_stds := 4 }

/-- `ImageProjectionFitResult` (lcls-tools) as populated by
`ImageProjectionFit._fit_image`.  The `projection_fit_method` reference
is omitted (it carries no data relevant to the claims). -/
structure ImageProjectionFitResult where
  centroid : RVal × RVal
  rms_size : RVal × RVal
  total_intensity : ℚ
  x_projection_fit_parameters : FitParams
  y_projection_fit_parameters : FitParams
  image : NDImage

/-- `ImageProjectionFit._fit_image`, additionally returning the list of
warnings emitted (in order): project both axes, fit each projection,
validate each axis (possibly NaN-ing its parameters in place), and
assemble the result from the validated parameters. -/
def fit_image_full (m : FitModel) (G : List ℚ → ℕ → List ℚ) (cfg : FitConfig)
    (img : NDImage) : ImageProjectionFitResult × List String :=
  let xp := x_projection img
  let yp := y_projection img
  let xp0 := fit_projection m G cfg.relative_filter_size xp
  let yp0 := fit_projection m G cfg.relative_filter_size yp
  let vx := validate m cfg.signal_to_noise_threshold cfg.max_sigma_to_image_size "x" xp xp0
  let vy := validate m cfg.signal_to_noise_threshold cfg.max_sigma_to_image_size "y" yp yp0
  ({ centroid := (vx.1.mean, vy.1.mean)
   , rms_size := (vx.1.sigma, vy.1.sigma)
   , total_intensity := isum img
   , x_projection_fit_parameters := vx.1
   , y_projection_fit_parameters := vy.1
   , image := img }, vx.2 ++ vy.2)

/-- The result of `ImageProjectionFit._fit_image`. -/
def fit_image (m : FitModel) (G : List ℚ → ℕ → List ℚ) (cfg : FitConfig)
    (img : NDImage) : ImageProjectionFitResult :=
  (fit_image_full m G cfg img).1

/-- The warnings emitted by `ImageProjectionFit._fit_image`. -/
def fit_warnings (m : FitModel) (G : List ℚ → ℕ → List ℚ) (cfg : FitConfig)
    (img : NDImage) : List String :=
  (fit_image_full m G cfg img).2

/-- The bounding box of `RecursiveImageProjectionFit._fit_image`:
`np.array([-1*rms_size*n_stds + centroid, rms_size*n_stds + centroid])`,
`.astype(int)`, then `np.clip(bbox, 0, image.shape[0])` — both
coordinate axes clipped against the row extent.  Returned as
`(bbox[0], bbox[1])`, each an `(x, y)` pair. -/
def bbox_of (cent rms : RVal × RVal) (n_stds : ℚ) (rows : ℕ) :
    (ℤ × ℤ) × (ℤ × ℤ) :=
  let ent : RVal → RVal → ℤ := fun r c => clipZ 0 (rows : ℤ) (pyIntR (rAdd r c))
  ((ent (rMulQ (-1 * n_stds) rms.1) cent.1, ent (rMulQ (-1 * n_stds) rms.2) cent.2),
   (ent (rMulQ n_stds rms.1) cent.1, ent (rMulQ n_stds rms.2) cent.2))

/-- `image[bbox[0][1]:bbox[1][1], bbox[0][0]:bbox[1][0]]` — the cropped
image the recursive fit re-fits (rows sliced by the y-coordinates,
columns by the x-coordinates). -/
def crop_of (m : FitModel) (G : List ℚ → ℕ → List ℚ) (cfg : FitConfig)
    (img : NDImage) : NDImage :=
  let f := fit_image m G cfg img
  let b := bbox_of f.centroid f.rms_size cfg.n_stds img.rows
  cropImage img b.1.2.toNat b.2.2.toNat b.1.1.toNat b.2.1.toNat

/-- `result.centroid += centroid`: elementwise float addition on the
centroid field only. -/
def addCentroid (r : ImageProjectionFitResult) (c : RVal × RVal) :
    ImageProjectionFitResult :=
  { r with centroid := (rAdd r.centroid.1 c.1, rAdd r.centroid.2 c.2) }

/-- `RecursiveImageProjectionFit._fit_image`: run the coarse fit; if
`np.any(np.isnan(rms_size))` return it unmodified; otherwise crop to the
bounding box, re-fit the crop, and add the *pass-1 centroid* to the
pass-2 centroid before returning the pass-2 result. -/
def recursive_fit_image (m : FitModel) (G : List ℚ → ℕ → List ℚ)
    (cfg : FitConfig) (img : NDImage) : ImageProjectionFitResult :=
  let fresult := fit_image m G cfg img
  if fresult.rms_size.1 = none ∨ fresult.rms_size.2 = none then
    fresult
  else
    addCentroid (fit_image m G cfg (crop_of m G cfg img)) fresult.centroid

/-! ## The persistence layer: `ml_tto/saver.py` (`H5Saver`)

A Python value that can appear in the dictionaries handed to
`H5Saver.save_to_h5`, and a model of the HDF5 file tree it writes.
h5py-level conventions of the model:
* a dataset is either a string or a homogeneous numeric array with a
  dtype kind (bool / integer / float), a shape, and flattened data;
  a 0-dimensional dataset reads back (`val[()]`) as a scalar of its
  kind, any other shape as an array;
* a group carries attribute metadata (`f.attrs`) and ordered children
  (the source passes `track_order=True` when creating them);
* attribute values are stored and read back verbatim (in the source
  they are h5py-storable scalars/strings; their numeric encoding is not
  relevant to any claim);
* h5py would raise on duplicate dataset/group names; the model appends
  instead.  Inputs originate from Python dicts, whose keys are unique,
  so this difference is unobservable. -/

/-- Numeric dtype kind of a dataset. -/
inductive NKind where
  | kbool
  | kint
  | kfloat
deriving DecidableEq

/-- A Python value as handled by `H5Saver`:
booleans, ints, floats (possibly NaN), strings, numpy arrays (the
Boolean field is `dtype == object`; kind/shape/flat data follow),
lists, dicts (ordered key/value pairs), and `pyother`, an arbitrary
object of an unsupported type whose `str()` representation is the
given string. -/
inductive PyVal where
  | pybool : Bool → PyVal
  | pyint : ℤ → PyVal
  | pyfloat : RVal → PyVal
  | pystr : String → PyVal
  | nparr : Bool → NKind → List ℕ → List RVal → PyVal
  | pylist : List PyVal → PyVal
  | pydict : List (String × PyVal) → PyVal
  | pyother : String → PyVal

/-- A node of the HDF5 file: a string dataset, a numeric dataset
(kind, shape, flat data), or a group (attributes, ordered children). -/
inductive H5Node where
  | dstr : String → H5Node
  | dnum : NKind → List ℕ → List RVal → H5Node
  | group : List (String × PyVal) → List (String × H5Node) → H5Node

/-- `isinstance(val, (bool, int, float, np.integer, np.floating))` —
the saver's `self.supported_types`. -/
def isSupportedScalar : PyVal → Bool
  | .pybool _ => true
  | .pyint _ => true
  | .pyfloat _ => true
  | _ => false

/-- `isinstance(ele, dict)`. -/
def isDictV : PyVal → Bool
  | .pydict _ => true
  | _ => false

/-- The numeric value of a supported scalar (garbage `none` otherwise;
only applied under `isSupportedScalar`). -/
def scalarRVal : PyVal → RVal
  | .pybool b => some (if b then 1 else 0)
  | .pyint n => some (n : ℚ)
  | .pyfloat q => q
  | _ => none

/-- The dtype kind a supported scalar contributes to a list's array. -/
def kindOf : PyVal → NKind
  | .pybool _ => .kbool
  | .pyint _ => .kint
  | _ => .kfloat

/-- numpy dtype promotion on kinds (bool < integer < float). -/
def kmax : NKind → NKind → NKind
  | .kfloat, _ => .kfloat
  | _, .kfloat => .kfloat
  | .kint, _ => .kint
  | _, .kint => .kint
  | .kbool, .kbool => .kbool

/-- The dtype numpy infers for a list of supported scalars (`float64`
for an empty list). -/
def promoteKind : List PyVal → NKind
  | [] => .kfloat
  | l => l.foldr (fun e k => kmax (kindOf e) k) .kbool

/-- Python `str(val)`.  Exact only where a claim depends on it:
`pyother` carries its own `str()` representation.  The renderings of
the remaining constructors are abstract placeholders; every theorem
below treats them opaquely. -/
def pyRepr : PyVal → String
  | .pybool b => if b then "True" else "False"
  | .pyint n => toString n
  | .pyfloat (some q) => toString q
  | .pyfloat none => "nan"
  | .pystr s => s
  | .nparr _ _ _ _ => "<ndarray>"
  | .pylist _ => "<list>"
  | .pydict _ => "<dict>"
  | .pyother s => s

/-- The string stored for an element of a mixed list: a string element
is stored as-is (with the configured string dtype), anything else as
`str(ele)`. -/
def strElem : PyVal → String
  | .pystr s => s
  | e => pyRepr e

/-- `f.attrs.update(val or h5py.Empty("f4"))`: the attribute pairs a
value contributes.  A falsy value (e.g. the empty dict) contributes
nothing; non-mapping truthy values would raise in h5py and are not
exercised by any claim — modelled as contributing nothing. -/
def attrsOf : PyVal → List (String × PyVal)
  | .pydict kvs => kvs
  | _ => []

mutual

/-- The dataset/group `recursive_save` creates for a single value
(`none` when nothing is created — exactly the silently-skipped numpy
array of object dtype). -/
def saveVal : PyVal → Option H5Node
  | .pybool b => some (.dnum .kbool [] [some (if b then 1 else 0)])
  | .pyint n => some (.dnum .kint [] [some (n : ℚ)])
  | .pyfloat q => some (.dnum .kfloat [] [q])
  | .pystr s => some (.dstr s)
  | .nparr true _ _ _ => none
  | .nparr false k shp dat => some (.dnum k shp dat)
  | .pylist l => some (saveList l)
  | .pydict kvs =>
    let p := recursive_save kvs
    some (.group p.1 p.2)
  | .pyother s => some (.dstr s)
termination_by v => (sizeOf v, 2)

/-- The `isinstance(val, list)` branch of `recursive_save`: a list of
supported scalars becomes one 1-d dataset; a list of dicts becomes a
group with children `"0"`, `"1"`, … saved recursively; any other list
becomes a group with children `"0"`, `"1"`, … holding the elements'
strings. -/
def saveList : List PyVal → H5Node
  | l =>
    if l.all isSupportedScalar then
      .dnum (promoteKind l) [l.length] (l.map scalarRVal)
    else if l.all isDictV then
      .group [] (saveDictList 0 l)
    else
      .group [] (l.enum.map fun p => (toString p.1, .dstr (strElem p.2)))
termination_by l => (sizeOf l, 1)

/-- The numbered subgroups created for a list of dicts (the
`.getD` default is never reached: every element is a dict, for which
`saveVal` returns a group). -/
def saveDictList : ℕ → List PyVal → List (String × H5Node)
  | _, [] => []
  | i, e :: rest =>
    (toString i, (saveVal e).getD (.dstr "")) :: saveDictList (i + 1) rest
termination_by _ l => (sizeOf l, 0)

/-- `recursive_save(d, f)`: fold over the dict's items in order,
returning the attribute pairs installed on `f` and the ordered children
created in `f`. -/
def recursive_save : List (String × PyVal) → List (String × PyVal) × List (String × H5Node)
  | [] => ([], [])
  | (k, v) :: rest =>
    let p := recursive_save rest
    if k = "attrs" then
      (attrsOf v ++ p.1, p.2)
    else
      match saveVal v with
      | some node => (p.1, (k, node) :: p.2)
      | none => p
termination_by kvs => (sizeOf kvs, 0)

end

/-- The Python value `recursive_load` produces for one stored node:
strings decode to `str`, a 0-d numeric dataset reads back as a scalar
of its kind (`val[()]`), any other numeric dataset as an array. -/
def numScalar (k : NKind) (v : RVal) : PyVal :=
  match k with
  | .kbool => .pybool (decide (v = some 1))
  | .kint => .pyint (match v with | some q => ⌊q⌋ | none => 0)
  | .kfloat => .pyfloat v

/-- The Python value a numeric dataset reads back as: a 0-d dataset as
a scalar of its kind (`val[()]`), anything else as an array. -/
def loadNum (k : NKind) (shp : List ℕ) (dat : List RVal) : PyVal :=
  match shp, dat with
  | [], [v] => numScalar k v
  | _, _ => .nparr false k shp dat

/-- The `{"attrs": dict(f.attrs)} if f.attrs else {}` prefix of a
loaded group. -/
def attrsEntry : List (String × PyVal) → List (String × PyVal)
  | [] => []
  | a => [("attrs", .pydict a)]

mutual

/-- `recursive_load` on one node. -/
def loadNode : H5Node → PyVal
  | .dstr s => .pystr s
  | .dnum k shp dat => loadNum k shp dat
  | .group attrs children =>
    .pydict (attrsEntry attrs ++ loadChildren children)
termination_by n => sizeOf n

/-- `recursive_load`'s iteration over a group's items (in stored
order). -/
def loadChildren : List (String × H5Node) → List (String × PyVal)
  | [] => []
  | (k, n) :: rest => (k, loadNode n) :: loadChildren rest
termination_by l => sizeOf l

end

/-- `H5Saver.save_to_h5`: write the dictionary into a fresh file,
returning the file's root (attributes, children). -/
def save_to_h5 (d : List (String × PyVal)) :
    List (String × PyVal) × List (String × H5Node) :=
  recursive_save d

/-- `H5Saver.load_from_h5`: read a file root back into a dictionary —
`{"attrs": dict(f.attrs)}` first when the attributes are nonempty, then
the items in stored order. -/
def load_from_h5 (f : List (String × PyVal) × List (String × H5Node)) :
    List (String × PyVal) :=
  attrsEntry f.1 ++ loadChildren f.2

/-- The attribute pairs a dict's items install on its group (the
`key == "attrs"` branches of `recursive_save`, in iteration order). -/
def collectAttrs : List (String × PyVal) → List (String × PyVal)
  | [] => []
  | (k, v) :: rest =>
    if k = "attrs" then attrsOf v ++ collectAttrs rest else collectAttrs rest

mutual

/-- What one saved-and-reloaded value comes back as (`none`: the value
is dropped — a numpy array of object dtype): scalars, strings and
non-object numeric arrays survive unchanged (a 0-d array as the
corresponding scalar), lists become datasets or index-keyed mappings,
dicts recurse, and an unsupported object comes back as its `str()`
string. -/
def transformVal : PyVal → Option PyVal
  | .pybool b => some (.pybool b)
  | .pyint n => some (.pyint n)
  | .pyfloat q => some (.pyfloat q)
  | .pystr s => some (.pystr s)
  | .nparr true _ _ _ => none
  | .nparr false k shp dat => some (loadNum k shp dat)
  | .pylist l => some (transformList l)
  | .pydict kvs =>
    some (.pydict (attrsEntry (collectAttrs kvs) ++ transformRest kvs))
  | .pyother s => some (.pystr s)
termination_by v => (sizeOf v, 2)

/-- What a saved-and-reloaded list comes back as: a list of supported
scalars as a 1-d numeric array, a list of dicts as a mapping keyed
`"0"`, `"1"`, …, any other list as a mapping keyed `"0"`, `"1"`, … of
the elements' strings. -/
def transformList : List PyVal → PyVal
  | l =>
    if l.all isSupportedScalar then
      .nparr false (promoteKind l) [l.length] (l.map scalarRVal)
    else if l.all isDictV then
      .pydict (transformDictList 0 l)
    else
      .pydict (l.enum.map fun p => (toString p.1, .pystr (strElem p.2)))
termination_by l => (sizeOf l, 1)

/-- Round-trip of a list of dicts, keyed by index. -/
def transformDictList : ℕ → List PyVal → List (String × PyVal)
  | _, [] => []
  | i, e :: rest =>
    (toString i, (transformVal e).getD (.pystr "")) :: transformDictList (i + 1) rest
termination_by _ l => (sizeOf l, 0)

/-- Round-trip of a dict's non-`"attrs"` items, in order, dropping the
values that are dropped. -/
def transformRest : List (String × PyVal) → List (String × PyVal)
  | [] => []
  | (k, v) :: rest =>
    if k = "attrs" then
      transformRest rest
    else
      match transformVal v with
      | some w => (k, w) :: transformRest rest
      | none => transformRest rest
termination_by kvs => (sizeOf kvs, 0)

end

/-- What a saved-and-reloaded dictionary comes back as: the collected
attribute metadata first (when nonempty, under the reserved key
`"attrs"`), then the surviving items in insertion order. -/
def transformEntries (kvs : List (String × PyVal)) : List (String × PyVal) :=
  attrsEntry (collectAttrs kvs) ++ transformRest kvs

/-! ## Spec-side predicates and concrete instances used by the theorems -/

/-- The spec's rejection condition for one axis (§4.3): either
`amplitude < noise_std × signal_to_noise_threshold` — with `noise_std`
the (real) standard deviation of the forward-prediction residuals — or
`max_sigma_to_image_size_ratio × sigma > len(projection)`.  Both
comparisons are IEEE-false when an operand is NaN, which the
`∃`-structure encodes. -/
def reject_condition (m : FitModel) (thr ratio_limit : ℚ)
    (proj : List ℚ) (p : FitParams) : Prop :=
  (∃ a v, p.amplitude = some a ∧ noiseVar (residuals m proj p) = some v ∧
    (a : ℝ) < Real.sqrt (v : ℝ) * (thr : ℝ)) ∨
  (∃ s, p.sigma = some s ∧ (proj.length : ℚ) < ratio_limit * s)

/-- A smoother stand-in that ignores its width argument. -/
def G0 : List ℚ → ℕ → List ℚ := fun d _ => d

/-- A smoother stand-in that records its width argument. -/
def Gpad : List ℚ → ℕ → List ℚ := fun d w => d.map fun x => x + w

/-- A 4×4 image with a single nonzero pixel at row 2, column 2.  Both
projections are `[0, 0, 1, 0]`. -/
def img4 : NDImage :=
  { rows := 4, cols := 4, px := fun i j => if i = 2 ∧ j = 2 then 1 else 0 }

/-- An exact table model for `img4`: on the 4-point projection it
returns amplitude 1, mean 2, sigma 1, and its forward prediction
reproduces the projection exactly (zero residuals). -/
def demoModel : FitModel :=
  { fit := fun d =>
      if d.length = 4 then
        { amplitude := some 1, mean := some 2, sigma := some 1, offset := some 0 }
      else nanParams
  , forward := fun coords _ => coords.map fun c => some (if c = 2 then 1 else 0) }

/-- A model whose forward prediction is identically zero on `img4`'s
projections, so the residual variance is 3/16 and the fitted amplitude
1 is below `noise_std × 4`. -/
def lowModel : FitModel :=
  { fit := fun d =>
      if d.length = 4 then
        { amplitude := some 1, mean := some 2, sigma := some (1 / 2), offset := some 0 }
      else nanParams
  , forward := fun coords _ => coords.map fun _ => some 0 }

/-- A model that always returns NaN parameters. -/
def nanModel : FitModel :=
  { fit := fun _ => nanParams
  , forward := fun coords _ => coords.map fun _ => none }

/-- A model reporting a mean far outside `img4` (mean 10, sigma 1), so
the bounding box `10 ∓ 4` clips to `[4, 4]` and the crop is empty. -/
def farModel : FitModel :=
  { fit := fun d =>
      if d.length = 4 then
        { amplitude := some 1, mean := some 10, sigma := some 1, offset := some 0 }
      else
        { amplitude := some 1, mean := some 0, sigma := some 1, offset := some 0 }
  , forward := fun coords _ => coords.map fun c => some (if c = 2 then 1 else 0) }

/-- A nested dictionary in the spec's round-trip fragment: a nested
mapping holding a NaN-valued parameter entry, a 2×2 float array, and a
float scalar. -/
def c5good : List (String × PyVal) :=
  [("fit", .pydict [("amplitude", .pyfloat none), ("mean", .pyfloat (some (3 / 2)))]),
   ("image", .nparr false .kfloat [2, 2] [some 1, some 0, some 0, some 1]),
   ("total", .pyfloat (some 4))]

/-! ### The round-trip characterisation of `load_from_h5 ∘ save_to_h5` -/

theorem recursive_save_fst (kvs : List (String × PyVal)) :
    (recursive_save kvs).1 = collectAttrs kvs := by
  induction kvs with
  | nil => simp [recursive_save, collectAttrs]
  | cons e rest ih =>
    obtain ⟨k, v⟩ := e
    by_cases hk : k = "attrs"
    · simp [recursive_save, collectAttrs, hk, ih]
    · simp only [recursive_save, collectAttrs, if_neg hk]
      cases saveVal v <;> simp [ih]

theorem loadChildren_map_dstr (L : List (ℕ × PyVal)) :
    loadChildren (L.map fun p => (toString p.1, H5Node.dstr (strElem p.2))) =
      L.map fun p => (toString p.1, PyVal.pystr (strElem p.2)) := by
  induction L with
  | nil => simp [loadChildren]
  | cons a L ih => simp [loadChildren, loadNode, ih]

mutual

theorem loadNode_saveVal (v : PyVal) :
    (saveVal v).map loadNode = transformVal v := by
  cases v with
  | pybool b =>
    cases b <;> simp [saveVal, loadNode, transformVal, loadNum, numScalar]
  | pyint n => simp [saveVal, loadNode, transformVal, loadNum, numScalar]
  | pyfloat q => simp [saveVal, loadNode, transformVal, loadNum, numScalar]
  | pystr s => simp [saveVal, loadNode, transformVal]
  | nparr isObj k shp dat =>
    cases isObj <;> simp [saveVal, loadNode, transformVal]
  | pylist l =>
    simp only [saveVal, transformVal, Option.map_some']
    exact congrArg some (loadNode_saveList l)
  | pydict kvs =>
    simp only [saveVal, transformVal, Option.map_some', loadNode,
      recursive_save_fst kvs, loadChildren_recursive_save kvs]
  | pyother s => simp [saveVal, loadNode, transformVal]
termination_by (sizeOf v, 2)

theorem loadNode_saveList (l : List PyVal) :
    loadNode (saveList l) = transformList l := by
  by_cases h1 : l.all isSupportedScalar
  · simp only [saveList, transformList, if_pos h1, loadNode]
    rfl
  · by_cases h2 : l.all isDictV
    · simp only [saveList, transformList, if_neg h1, if_pos h2, loadNode,
        attrsEntry, List.nil_append]
      exact congrArg PyVal.pydict (loadChildren_saveDictList 0 l)
    · simp only [saveList, transformList, if_neg h1, if_neg h2, loadNode,
        attrsEntry, List.nil_append]
      exact congrArg PyVal.pydict (loadChildren_map_dstr l.enum)
termination_by (sizeOf l, 1)

theorem loadChildren_saveDictList (i : ℕ) (l : List PyVal) :
    loadChildren (saveDictList i l) = transformDictList i l := by
  cases l with
  | nil => simp [saveDictList, transformDictList, loadChildren]
  | cons e rest =>
    simp only [saveDictList, transformDictList, loadChildren,
      loadChildren_saveDictList (i + 1) rest]
    have h := loadNode_saveVal e
    cases hsv : saveVal e with
    | none =>
      rw [hsv] at h
      simp only [Option.map_none'] at h
      rw [← h]
      simp [loadNode]
    | some node =>
      rw [hsv] at h
      simp only [Option.map_some'] at h
      rw [← h]
      simp
termination_by (sizeOf l, 0)

theorem loadChildren_recursive_save (kvs : List (String × PyVal)) :
    loadChildren (recursive_save kvs).2 = transformRest kvs := by
  cases kvs with
  | nil => simp [recursive_save, transformRest, loadChildren]
  | cons e rest =>
    obtain ⟨k, v⟩ := e
    by_cases hk : k = "attrs"
    · simp only [recursive_save, transformRest, if_pos hk]
      exact loadChildren_recursive_save rest
    · simp only [recursive_save, transformRest, if_neg hk]
      have h := loadNode_saveVal v
      cases hsv : saveVal v with
      | none =>
        rw [hsv] at h
        simp only [Option.map_none'] at h
        rw [← h]
        exact loadChildren_recursive_save rest
      | some node =>
        rw [hsv] at h
        simp only [Option.map_some'] at h
        rw [← h]
        simp only [loadChildren, loadChildren_recursive_save rest]
termination_by (sizeOf kvs, 0)

end

/-- `load_from_h5 ∘ save_to_h5` acts as `transformEntries`. -/
theorem load_save_roundtrip (d : List (String × PyVal)) :
    load_from_h5 (save_to_h5 d) = transformEntries d := by
  simp only [load_from_h5, save_to_h5, transformEntries,
    recursive_save_fst, loadChildren_recursive_save]

/-! ### General lemmas about the validator -/

theorem listVar_nonneg (l : List ℚ) : 0 ≤ listVar l := by
  unfold listVar
  apply div_nonneg
  · apply List.sum_nonneg
    intro x hx
    simp only [List.mem_map] at hx
    obtain ⟨y, -, rfl⟩ := hx
    positivity
  · positivity

theorem noiseVar_nonneg (l : List RVal) (v : ℚ) (h : noiseVar l = some v) :
    0 ≤ v := by
  unfold noiseVar at h
  cases hall : allSomeList l with
  | none => rw [hall] at h; exact absurd h (by simp)
  | some vals =>
    rw [hall] at h
    cases vals with
    | nil => exact absurd h (by simp)
    | cons a rest =>
      simp only [Option.some.injEq] at h
      exact h ▸ listVar_nonneg _

/-- The ℚ-decided Boolean `snr_reject` agrees with the source's
floating-point comparison `amplitude < noise_std * threshold`, where
`noise_std` is the real square root of the residual variance. -/
theorem snr_reject_iff_sqrt (a v thr : ℚ) (hv : 0 ≤ v) (hthr : 0 < thr) :
    snr_reject (some a) (some v) thr = true ↔
      (a : ℝ) < Real.sqrt (v : ℝ) * (thr : ℝ) := by
  have hv' : (0 : ℝ) ≤ (v : ℝ) := by exact_mod_cast hv
  have hthr' : (0 : ℝ) < (thr : ℝ) := by exact_mod_cast hthr
  have hs : (0 : ℝ) ≤ Real.sqrt (v : ℝ) := Real.sqrt_nonneg _
  simp only [snr_reject, Bool.or_eq_true, Bool.and_eq_true, decide_eq_true_eq]
  constructor
  · rintro (h | ⟨h0, h2⟩)
    · have : (a : ℝ) < 0 := by exact_mod_cast h
      exact lt_of_lt_of_le this (by positivity)
    · have h0' : (0 : ℝ) ≤ (a : ℝ) := by exact_mod_cast h0
      have h2' : (a : ℝ) ^ 2 < (v : ℝ) * (thr : ℝ) ^ 2 := by exact_mod_cast h2
      have hsq : (a : ℝ) ^ 2 < (Real.sqrt (v : ℝ) * (thr : ℝ)) ^ 2 := by
        rw [mul_pow, Real.sq_sqrt hv']
        exact h2'
      exact lt_of_pow_lt_pow_left₀ 2 (by positivity) hsq
  · intro h
    by_cases h0 : a < 0
    · exact Or.inl h0
    · push_neg at h0
      refine Or.inr ⟨h0, ?_⟩
      have h0' : (0 : ℝ) ≤ (a : ℝ) := by exact_mod_cast h0
      have hsq : (a : ℝ) ^ 2 < (Real.sqrt (v : ℝ) * (thr : ℝ)) ^ 2 :=
        pow_lt_pow_left₀ h h0' (by norm_num)
      rw [mul_pow, Real.sq_sqrt hv'] at hsq
      exact_mod_cast hsq

/-- The signal-to-noise Boolean agrees with the spec's condition for
arbitrary (possibly NaN) operands. -/
theorem snr_reject_iff_spec (amp nv : RVal) (thr : ℚ) (hthr : 0 < thr)
    (hnv : ∀ v, nv = some v → 0 ≤ v) :
    snr_reject amp nv thr = true ↔
      ∃ a v, amp = some a ∧ nv = some v ∧
        (a : ℝ) < Real.sqrt (v : ℝ) * (thr : ℝ) := by
  cases amp with
  | none => simp [snr_reject]
  | some a =>
    cases nv with
    | none => simp [snr_reject]
    | some v =>
      rw [snr_reject_iff_sqrt a v thr (hnv v rfl) hthr]
      constructor
      · intro h
        exact ⟨a, v, rfl, rfl, h⟩
      · rintro ⟨a', v', ha, hv, h⟩
        cases ha
        cases hv
        exact h

/-- The size-check Boolean agrees with the spec's condition for a
possibly-NaN sigma. -/
theorem size_reject_iff_spec (sigma : RVal) (lim : ℚ) (n : ℕ) :
    size_reject sigma lim n = true ↔
      ∃ s, sigma = some s ∧ (n : ℚ) < lim * s := by
  cases sigma with
  | none => simp [size_reject]
  | some s =>
    simp [size_reject]

/-- Case analysis of the per-axis validation against the spec's
rejection condition. -/
theorem validate_cases (m : FitModel) (thr lim : ℚ) (d : String)
    (proj : List ℚ) (p : FitParams) (hthr : 0 < thr) :
    (reject_condition m thr lim proj p →
      (validate m thr lim d proj p).1 = nanParams ∧
      ((validate m thr lim d proj p).2 = [lowAmpMsg d] ∨
       (validate m thr lim d proj p).2 = [tooBigMsg d])) ∧
    (¬ reject_condition m thr lim proj p →
      validate m thr lim d proj p = (p, [])) := by
  have hsnr := snr_reject_iff_spec p.amplitude (noiseVar (residuals m proj p)) thr hthr
    (fun v hv => noiseVar_nonneg _ v hv)
  have hsize := size_reject_iff_spec p.sigma lim proj.length
  constructor
  · intro hrej
    by_cases b1 : snr_reject p.amplitude (noiseVar (residuals m proj p)) thr = true
    · simp [validate, b1]
    · rcases hrej with h1 | h2
      · exact absurd (hsnr.mpr h1) b1
      · have b2 := hsize.mpr h2
        simp [validate, b1, b2]
  · intro hnrej
    have b1 : ¬ snr_reject p.amplitude (noiseVar (residuals m proj p)) thr = true :=
      fun h => hnrej (Or.inl (hsnr.mp h))
    have b2 : ¬ size_reject p.sigma lim proj.length = true :=
      fun h => hnrej (Or.inr (hsize.mp h))
    simp [validate, b1, b2]

/-! ### Concrete evaluations of the pipeline -/

theorem demo_fit_rms :
    (fit_image demoModel G0 defaultConfig img4).rms_size = (some 1, some 1) := by
  norm_num [fit_image, fit_image_full, fit_projection, model_setup, x_projection, y_projection,
    validate, snr_reject, size_reject, noiseVar, residuals, allSomeList, listVar, listMean,
    npIdx, isum, img4, demoModel, G0, defaultConfig, nanParams, pyInt, List.range_succ]

theorem demo_fit_centroid :
    (fit_image demoModel G0 defaultConfig img4).centroid = (some 2, some 2) := by
  norm_num [fit_image, fit_image_full, fit_projection, model_setup, x_projection, y_projection,
    validate, snr_reject, size_reject, noiseVar, residuals, allSomeList, listVar, listMean,
    npIdx, isum, img4, demoModel, G0, defaultConfig, nanParams, pyInt, List.range_succ]

theorem demo_recursive_centroid :
    (recursive_fit_image demoModel G0 defaultConfig img4).centroid = (some 4, some 4) := by
  norm_num [recursive_fit_image, fit_image, fit_image_full, fit_projection, model_setup,
    x_projection, y_projection, validate, snr_reject, size_reject, noiseVar, residuals,
    allSomeList, listVar, listMean, npIdx, isum, crop_of, bbox_of, cropImage, addCentroid,
    rAdd, rSub, rMulQ, pyInt, pyIntR, clipZ, img4, demoModel, G0, defaultConfig, nanParams,
    List.range_succ] <;>
  simp <;>
  norm_num [recursive_fit_image, fit_image, fit_image_full, fit_projection, model_setup,
    x_projection, y_projection, validate, snr_reject, size_reject, noiseVar, residuals,
    allSomeList, listVar, listMean, npIdx, isum, crop_of, bbox_of, cropImage, addCentroid,
    rAdd, rSub, rMulQ, pyInt, pyIntR, clipZ, img4, demoModel, G0, defaultConfig, nanParams,
    List.range_succ]

theorem nan_fit_rms1 :
    (fit_image nanModel G0 defaultConfig img4).rms_size.1 = none := by
  norm_num [fit_image, fit_image_full, fit_projection, model_setup, x_projection, y_projection,
    validate, snr_reject, size_reject, noiseVar, residuals, allSomeList, listVar, listMean,
    npIdx, isum, img4, nanModel, G0, defaultConfig, nanParams, pyInt, List.range_succ]

theorem far_fit_rms :
    (fit_image farModel G0 defaultConfig img4).rms_size = (some 1, some 1) := by
  norm_num [fit_image, fit_image_full, fit_projection, model_setup, x_projection, y_projection,
    validate, snr_reject, size_reject, noiseVar, residuals, allSomeList, listVar, listMean,
    npIdx, isum, img4, farModel, G0, defaultConfig, nanParams, pyInt, List.range_succ]

theorem far_fit_centroid :
    (fit_image farModel G0 defaultConfig img4).centroid = (some 10, some 10) := by
  norm_num [fit_image, fit_image_full, fit_projection, model_setup, x_projection, y_projection,
    validate, snr_reject, size_reject, noiseVar, residuals, allSomeList, listVar, listMean,
    npIdx, isum, img4, farModel, G0, defaultConfig, nanParams, pyInt, List.range_succ]

theorem far_crop_empty :
    (crop_of farModel G0 defaultConfig img4).rows = 0 ∧
    (crop_of farModel G0 defaultConfig img4).cols = 0 := by
  norm_num [crop_of, bbox_of, cropImage, fit_image, fit_image_full, fit_projection, model_setup,
    x_projection, y_projection, validate, snr_reject, size_reject, noiseVar, residuals,
    allSomeList, listVar, listMean, npIdx, isum, rAdd, rSub, rMulQ, pyInt, pyIntR, clipZ,
    img4, farModel, G0, defaultConfig, nanParams, List.range_succ] <;>
  simp <;>
  norm_num

theorem far_recursive_centroid :
    (recursive_fit_image farModel G0 defaultConfig img4).centroid = (none, none) := by
  norm_num [recursive_fit_image, fit_image, fit_image_full, fit_projection, model_setup,
    x_projection, y_projection, validate, snr_reject, size_reject, noiseVar, residuals,
    allSomeList, listVar, listMean, npIdx, isum, crop_of, bbox_of, cropImage, addCentroid,
    rAdd, rSub, rMulQ, pyInt, pyIntR, clipZ, img4, farModel, G0, defaultConfig, nanParams,
    List.range_succ] <;>
  simp <;>
  norm_num [recursive_fit_image, fit_image, fit_image_full, fit_projection, model_setup,
    x_projection, y_projection, validate, snr_reject, size_reject, noiseVar, residuals,
    allSomeList, listVar, listMean, npIdx, isum, crop_of, bbox_of, cropImage, addCentroid,
    rAdd, rSub, rMulQ, pyInt, pyIntR, clipZ, img4, farModel, G0, defaultConfig, nanParams,
    List.range_succ]

theorem low_p0 :
    fit_projection lowModel G0 defaultConfig.relative_filter_size (x_projection img4) =
      { amplitude := some 1, mean := some 2, sigma := some (1 / 2), offset := some 0 } := by
  norm_num [fit_projection, model_setup, x_projection, img4, lowModel, G0, defaultConfig,
    pyInt, List.range_succ]

theorem low_nv :
    noiseVar (residuals lowModel (x_projection img4)
      (fit_projection lowModel G0 defaultConfig.relative_filter_size (x_projection img4))) =
      some (3 / 16) := by
  norm_num [fit_projection, model_setup, x_projection, img4, lowModel, G0, defaultConfig,
    noiseVar, residuals, allSomeList, listVar, listMean, npIdx, rSub, pyInt, List.range_succ]

/-! ### Structural unfolding lemmas for `fit_image` -/

theorem fit_image_x_params (m : FitModel) (G : List ℚ → ℕ → List ℚ) (cfg : FitConfig)
    (img : NDImage) :
    (fit_image m G cfg img).x_projection_fit_parameters =
      (validate m cfg.signal_to_noise_threshold cfg.max_sigma_to_image_size "x"
        (x_projection img)
        (fit_projection m G cfg.relative_filter_size (x_projection img))).1 := rfl

theorem fit_image_y_params (m : FitModel) (G : List ℚ → ℕ → List ℚ) (cfg : FitConfig)
    (img : NDImage) :
    (fit_image m G cfg img).y_projection_fit_parameters =
      (validate m cfg.signal_to_noise_threshold cfg.max_sigma_to_image_size "y"
        (y_projection img)
        (fit_projection m G cfg.relative_filter_size (y_projection img))).1 := rfl

theorem fit_image_centroid_eq (m : FitModel) (G : List ℚ → ℕ → List ℚ) (cfg : FitConfig)
    (img : NDImage) :
    (fit_image m G cfg img).centroid =
      ((fit_image m G cfg img).x_projection_fit_parameters.mean,
       (fit_image m G cfg img).y_projection_fit_parameters.mean) := rfl

theorem fit_image_rms_eq (m : FitModel) (G : List ℚ → ℕ → List ℚ) (cfg : FitConfig)
    (img : NDImage) :
    (fit_image m G cfg img).rms_size =
      ((fit_image m G cfg img).x_projection_fit_parameters.sigma,
       (fit_image m G cfg img).y_projection_fit_parameters.sigma) := rfl

theorem fit_warnings_eq (m : FitModel) (G : List ℚ → ℕ → List ℚ) (cfg : FitConfig)
    (img : NDImage) :
    fit_warnings m G cfg img =
      (validate m cfg.signal_to_noise_threshold cfg.max_sigma_to_image_size "x"
        (x_projection img)
        (fit_projection m G cfg.relative_filter_size (x_projection img))).2 ++
      (validate m cfg.signal_to_noise_threshold cfg.max_sigma_to_image_size "y"
        (y_projection img)
        (fit_projection m G cfg.relative_filter_size (y_projection img))).2 := rfl

theorem rAdd_lower (n s c : ℚ) :
    rAdd (rMulQ (-1 * n) (some s)) (some c) = some (c - n * s) := by
  simp only [rAdd, rMulQ, Option.some.injEq]
  ring

theorem rAdd_upper (n s c : ℚ) :
    rAdd (rMulQ n (some s)) (some c) = some (c + n * s) := by
  simp only [rAdd, rMulQ, Option.some.injEq]
  ring

/-! ## The claims -/

/-- C9: `MLProjectionFit.model_setup` computes the integer smoothing
width `int(len(data) * relative_filter_size)`, which for a nonnegative
filter fraction equals `⌊len(data) * relative_filter_size⌋`; when the
width is 0 — in particular whenever `relative_filter_size = 0` — the
data handed to the model is the input unchanged, and when it is
positive the Gaussian smoothing kernel is applied with that width as
its standard deviation. -/
theorem C9_model_setup_smoothing (G : List ℚ → ℕ → List ℚ) (r : ℚ) (d : List ℚ)
    (hr : 0 ≤ r) :
    pyInt ((d.length : ℚ) * r) = ⌊(d.length : ℚ) * r⌋ ∧
    (r = 0 → model_setup G r d = d) ∧
    (⌊(d.length : ℚ) * r⌋ = 0 → model_setup G r d = d) ∧
    (0 < ⌊(d.length : ℚ) * r⌋ →
      model_setup G r d = G d (⌊(d.length : ℚ) * r⌋).toNat) := by
  have hprod : 0 ≤ (d.length : ℚ) * r := by positivity
  have hpy : pyInt ((d.length : ℚ) * r) = ⌊(d.length : ℚ) * r⌋ := by
    unfold pyInt
    rw [if_pos hprod]
  refine ⟨hpy, ?_, ?_, ?_⟩
  · intro h0
    subst h0
    simp [model_setup, pyInt]
  · intro hw
    simp only [model_setup, hpy, hw]
    simp
  · intro hw
    simp only [model_setup, hpy]
    rw [if_pos hw]

/-- Witness for C9 at `r = 0` (identity) and `r = 1/2` on a 4-point
list (width `⌊4 · 1/2⌋ = 2 > 0`, smoother applied with width 2). -/
theorem C9_witness :
    model_setup Gpad 0 [1, 2, 3, 4] = [1, 2, 3, 4] ∧
    model_setup Gpad (1 / 2) [1, 2, 3, 4] = Gpad [1, 2, 3, 4] 2 := by
  constructor
  · exact (C9_model_setup_smoothing Gpad 0 [1, 2, 3, 4] le_rfl).2.1 rfl
  · have h := (C9_model_setup_smoothing Gpad (1 / 2) [1, 2, 3, 4] (by norm_num)).2.2.2
    have h2 : ⌊(([1, 2, 3, 4] : List ℚ).length : ℚ) * (1 / 2)⌋ = 2 := by
      norm_num
    rw [h2] at h
    exact h (by norm_num)

/-- C4: when the coarse fit's `rms_size` contains a NaN on either axis,
`RecursiveImageProjectionFit._fit_image` returns the pass-1 result
unmodified — no bounding box, no crop, no second fit. -/
theorem C4_nan_guard (m : FitModel) (G : List ℚ → ℕ → List ℚ) (cfg : FitConfig)
    (img : NDImage)
    (h : (fit_image m G cfg img).rms_size.1 = none ∨
         (fit_image m G cfg img).rms_size.2 = none) :
    recursive_fit_image m G cfg img = fit_image m G cfg img := by
  simp only [recursive_fit_image]
  exact if_pos h

/-- Witness for C4: a model returning all-NaN parameters makes the
coarse `rms_size` NaN, and the recursive fit returns the coarse result
object. -/
theorem C4_witness :
    recursive_fit_image nanModel G0 defaultConfig img4 =
      fit_image nanModel G0 defaultConfig img4 :=
  C4_nan_guard nanModel G0 defaultConfig img4 (Or.inl nan_fit_rms1)

/-- C6: when the validator rejects an axis (sets its parameters to
NaN), the assembled `ImageProjectionFitResult` has a NaN centroid entry
and a NaN `rms_size` entry for that axis. -/
theorem C6_rejected_axis_nan (m : FitModel) (G : List ℚ → ℕ → List ℚ) (cfg : FitConfig)
    (img : NDImage) :
    ((validate m cfg.signal_to_noise_threshold cfg.max_sigma_to_image_size "x"
        (x_projection img)
        (fit_projection m G cfg.relative_filter_size (x_projection img))).1 = nanParams →
      (fit_image m G cfg img).centroid.1 = none ∧
      (fit_image m G cfg img).rms_size.1 = none) ∧
    ((validate m cfg.signal_to_noise_threshold cfg.max_sigma_to_image_size "y"
        (y_projection img)
        (fit_projection m G cfg.relative_filter_size (y_projection img))).1 = nanParams →
      (fit_image m G cfg img).centroid.2 = none ∧
      (fit_image m G cfg img).rms_size.2 = none) := by
  constructor
  · intro h
    constructor
    · rw [fit_image_centroid_eq, fit_image_x_params, h]
      rfl
    · rw [fit_image_rms_eq, fit_image_x_params, h]
      rfl
  · intro h
    constructor
    · rw [fit_image_centroid_eq, fit_image_y_params, h]
      rfl
    · rw [fit_image_rms_eq, fit_image_y_params, h]
      rfl

/-- Witness for C6: `lowModel` is rejected on the x axis
(amplitude 1 below `noise_std × 4`), and the resulting centroid and rms
entries for x are NaN. -/
theorem C6_witness :
    (fit_image lowModel G0 defaultConfig img4).centroid.1 = none ∧
    (fit_image lowModel G0 defaultConfig img4).rms_size.1 = none := by
  have hval : (validate lowModel defaultConfig.signal_to_noise_threshold
      defaultConfig.max_sigma_to_image_size "x" (x_projection img4)
      (fit_projection lowModel G0 defaultConfig.relative_filter_size (x_projection img4))).1 =
      nanParams := by
    norm_num [validate, fit_projection, model_setup, x_projection, img4, lowModel, G0,
      defaultConfig, noiseVar, residuals, allSomeList, listVar, listMean, npIdx, rSub,
      pyInt, snr_reject, size_reject, nanParams, List.range_succ]
  exact (C6_rejected_axis_nan lowModel G0 defaultConfig img4).1 hval

/-- C7: when refinement occurs (no NaN in the coarse `rms_size`), the
returned result is the pass-2 fit of the cropped image with only its
centroid modified — by adding the pass-1 centroid — while `rms_size`,
`total_intensity`, both parameter sets and the stored image are exactly
the pass-2 values. -/
theorem C7_refinement_frame (m : FitModel) (G : List ℚ → ℕ → List ℚ) (cfg : FitConfig)
    (img : NDImage)
    (h1 : (fit_image m G cfg img).rms_size.1 ≠ none)
    (h2 : (fit_image m G cfg img).rms_size.2 ≠ none) :
    recursive_fit_image m G cfg img =
      addCentroid (fit_image m G cfg (crop_of m G cfg img))
        (fit_image m G cfg img).centroid ∧
    (recursive_fit_image m G cfg img).rms_size =
      (fit_image m G cfg (crop_of m G cfg img)).rms_size ∧
    (recursive_fit_image m G cfg img).total_intensity =
      (fit_image m G cfg (crop_of m G cfg img)).total_intensity ∧
    (recursive_fit_image m G cfg img).x_projection_fit_parameters =
      (fit_image m G cfg (crop_of m G cfg img)).x_projection_fit_parameters ∧
    (recursive_fit_image m G cfg img).y_projection_fit_parameters =
      (fit_image m G cfg (crop_of m G cfg img)).y_projection_fit_parameters ∧
    (recursive_fit_image m G cfg img).image =
      (fit_image m G cfg (crop_of m G cfg img)).image ∧
    (recursive_fit_image m G cfg img).centroid =
      (rAdd (fit_image m G cfg (crop_of m G cfg img)).centroid.1
         (fit_image m G cfg img).centroid.1,
       rAdd (fit_image m G cfg (crop_of m G cfg img)).centroid.2
         (fit_image m G cfg img).centroid.2) := by
  have hne : ¬((fit_image m G cfg img).rms_size.1 = none ∨
      (fit_image m G cfg img).rms_size.2 = none) := by
    rintro (h | h)
    · exact h1 h
    · exact h2 h
  simp only [recursive_fit_image]
  rw [if_neg hne]
  exact ⟨rfl, rfl, rfl, rfl, rfl, rfl, rfl⟩

/-- Witness for C7 at the `demoModel`/`img4` scenario (valid coarse
fit, `rms_size = (1, 1)`). -/
theorem C7_witness :
    recursive_fit_image demoModel G0 defaultConfig img4 =
      addCentroid (fit_image demoModel G0 defaultConfig
          (crop_of demoModel G0 defaultConfig img4))
        (fit_image demoModel G0 defaultConfig img4).centroid :=
  (C7_refinement_frame demoModel G0 defaultConfig img4
    (by rw [demo_fit_rms]; simp) (by rw [demo_fit_rms]; simp)).1

/-- C2: with a valid (numeric) coarse fit, the recursive fit computes
the bounding box with lower corner `centroid − n_stds × rms_size` and
upper corner `centroid + n_stds × rms_size`, casts both corners to
integers (truncation), clips *both* the x and y coordinates to
`[0, image.shape[0]]` (the row extent), and crops the image with rows
sliced by the box's y-coordinates and columns by its x-coordinates —
then re-fits that crop (and adds the pass-1 centroid). -/
theorem C2_bbox_clip_crop (m : FitModel) (G : List ℚ → ℕ → List ℚ) (cfg : FitConfig)
    (img : NDImage) (sx sy cx cy : ℚ)
    (hrms : (fit_image m G cfg img).rms_size = (some sx, some sy))
    (hcent : (fit_image m G cfg img).centroid = (some cx, some cy)) :
    recursive_fit_image m G cfg img =
      addCentroid
        (fit_image m G cfg
          (cropImage img
            (clipZ 0 (img.rows : ℤ) (pyInt (cy - cfg.n_stds * sy))).toNat
            (clipZ 0 (img.rows : ℤ) (pyInt (cy + cfg.n_stds * sy))).toNat
            (clipZ 0 (img.rows : ℤ) (pyInt (cx - cfg.n_stds * sx))).toNat
            (clipZ 0 (img.rows : ℤ) (pyInt (cx + cfg.n_stds * sx))).toNat))
        (some cx, some cy) := by
  have hne : ¬((fit_image m G cfg img).rms_size.1 = none ∨
      (fit_image m G cfg img).rms_size.2 = none) := by
    rw [hrms]
    simp
  simp only [recursive_fit_image]
  rw [if_neg hne]
  simp only [crop_of, bbox_of, hrms, hcent, rAdd_lower, rAdd_upper, pyIntR]
  ring_nf

/-- Witness for C2 at the `demoModel`/`img4` scenario. -/
theorem C2_witness :
    recursive_fit_image demoModel G0 defaultConfig img4 =
      addCentroid
        (fit_image demoModel G0 defaultConfig
          (cropImage img4
            (clipZ 0 (img4.rows : ℤ) (pyInt (2 - defaultConfig.n_stds * 1))).toNat
            (clipZ 0 (img4.rows : ℤ) (pyInt (2 + defaultConfig.n_stds * 1))).toNat
            (clipZ 0 (img4.rows : ℤ) (pyInt (2 - defaultConfig.n_stds * 1))).toNat
            (clipZ 0 (img4.rows : ℤ) (pyInt (2 + defaultConfig.n_stds * 1))).toNat))
        (some 2, some 2) :=
  C2_bbox_clip_crop demoModel G0 defaultConfig img4 1 1 2 2 demo_fit_rms demo_fit_centroid

/-- C1 (code bug): on `img4` with the exact table model, the coarse
centroid is `(2, 2)` with a valid `rms_size`, yet
`RecursiveImageProjectionFit._fit_image` returns centroid `(4, 4)` —
the pass-2 centroid *plus the full pass-1 centroid* — instead of a
value within rounding tolerance of the coarse centroid.  (The correct
offset correction would add the crop's lower corner, here `(0, 0)`.) -/
theorem C1_centroid_not_recovered :
    (fit_image demoModel G0 defaultConfig img4).centroid = (some 2, some 2) ∧
    (fit_image demoModel G0 defaultConfig img4).rms_size = (some 1, some 1) ∧
    (recursive_fit_image demoModel G0 defaultConfig img4).centroid = (some 4, some 4) :=
  ⟨demo_fit_centroid, demo_fit_rms, demo_recursive_centroid⟩

/-- C8 (amended): the refiner contains no empty-crop fallback: whenever
refinement occurs and the clipped bounding box collapses so that the
cropped image is empty, the refiner still runs the second fit on the
empty crop and returns that pass-2 result with the pass-1 centroid
added — it does not return the pass-1 result. -/
theorem C8_empty_crop_no_fallback (m : FitModel) (G : List ℚ → ℕ → List ℚ)
    (cfg : FitConfig) (img : NDImage)
    (h1 : (fit_image m G cfg img).rms_size.1 ≠ none)
    (h2 : (fit_image m G cfg img).rms_size.2 ≠ none)
    (_hempty : (crop_of m G cfg img).rows = 0 ∨ (crop_of m G cfg img).cols = 0) :
    recursive_fit_image m G cfg img =
      addCentroid (fit_image m G cfg (crop_of m G cfg img))
        (fit_image m G cfg img).centroid := by
  have hne : ¬((fit_image m G cfg img).rms_size.1 = none ∨
      (fit_image m G cfg img).rms_size.2 = none) := by
    rintro (h | h)
    · exact h1 h
    · exact h2 h
  simp only [recursive_fit_image]
  rw [if_neg hne]

/-- Counterexample to C8 as claimed: with `farModel` the clipped
bounding box collapses (`[4, 4]` on a 4-row image), the crop is the
empty 0×0 image, and the refiner does *not* fall back to the pass-1
result — it returns the pass-2-of-empty result, whose centroid is NaN,
while the pass-1 centroid is `(10, 10)`. -/
theorem C8_counterexample :
    ((crop_of farModel G0 defaultConfig img4).rows = 0 ∧
     (crop_of farModel G0 defaultConfig img4).cols = 0) ∧
    (recursive_fit_image farModel G0 defaultConfig img4).centroid = (none, none) ∧
    (fit_image farModel G0 defaultConfig img4).centroid = (some 10, some 10) ∧
    recursive_fit_image farModel G0 defaultConfig img4 ≠
      fit_image farModel G0 defaultConfig img4 := by
  refine ⟨far_crop_empty, far_recursive_centroid, far_fit_centroid, fun h => ?_⟩
  have := congrArg ImageProjectionFitResult.centroid h
  rw [far_recursive_centroid, far_fit_centroid] at this
  simp at this

/-- Witness for the amended C8 at the `farModel` scenario. -/
theorem C8_witness :
    recursive_fit_image farModel G0 defaultConfig img4 =
      addCentroid (fit_image farModel G0 defaultConfig
          (crop_of farModel G0 defaultConfig img4))
        (fit_image farModel G0 defaultConfig img4).centroid :=
  C8_empty_crop_no_fallback farModel G0 defaultConfig img4
    (by rw [far_fit_rms]; simp) (by rw [far_fit_rms]; simp)
    (Or.inl far_crop_empty.1)

/-- C3: in `ImageProjectionFit._fit_image`, for each axis: with
`noise_std` the standard deviation of the forward prediction over
`0..len-1` minus the actual projection, if
`amplitude < noise_std × signal_to_noise_threshold` or
`max_sigma_to_image_size_ratio × sigma > len(projection)` then every
parameter of that axis is NaN in the result and a warning naming the
axis is emitted; otherwise the axis's parameters are returned
unchanged. -/
theorem C3_fit_image_validation (m : FitModel) (G : List ℚ → ℕ → List ℚ)
    (cfg : FitConfig) (img : NDImage)
    (hthr : 0 < cfg.signal_to_noise_threshold) :
    (reject_condition m cfg.signal_to_noise_threshold cfg.max_sigma_to_image_size
        (x_projection img)
        (fit_projection m G cfg.relative_filter_size (x_projection img)) →
      (fit_image m G cfg img).x_projection_fit_parameters = nanParams ∧
      (lowAmpMsg "x" ∈ fit_warnings m G cfg img ∨
       tooBigMsg "x" ∈ fit_warnings m G cfg img)) ∧
    (¬ reject_condition m cfg.signal_to_noise_threshold cfg.max_sigma_to_image_size
        (x_projection img)
        (fit_projection m G cfg.relative_filter_size (x_projection img)) →
      (fit_image m G cfg img).x_projection_fit_parameters =
        fit_projection m G cfg.relative_filter_size (x_projection img)) ∧
    (reject_condition m cfg.signal_to_noise_threshold cfg.max_sigma_to_image_size
        (y_projection img)
        (fit_projection m G cfg.relative_filter_size (y_projection img)) →
      (fit_image m G cfg img).y_projection_fit_parameters = nanParams ∧
      (lowAmpMsg "y" ∈ fit_warnings m G cfg img ∨
       tooBigMsg "y" ∈ fit_warnings m G cfg img)) ∧
    (¬ reject_condition m cfg.signal_to_noise_threshold cfg.max_sigma_to_image_size
        (y_projection img)
        (fit_projection m G cfg.relative_filter_size (y_projection img)) →
      (fit_image m G cfg img).y_projection_fit_parameters =
        fit_projection m G cfg.relative_filter_size (y_projection img)) := by
  obtain ⟨hxr, hxp⟩ := validate_cases m cfg.signal_to_noise_threshold
    cfg.max_sigma_to_image_size "x" (x_projection img)
    (fit_projection m G cfg.relative_filter_size (x_projection img)) hthr
  obtain ⟨hyr, hyp⟩ := validate_cases m cfg.signal_to_noise_threshold
    cfg.max_sigma_to_image_size "y" (y_projection img)
    (fit_projection m G cfg.relative_filter_size (y_projection img)) hthr
  refine ⟨fun h => ?_, fun h => ?_, fun h => ?_, fun h => ?_⟩
  · obtain ⟨hp, hw⟩ := hxr h
    refine ⟨by rw [fit_image_x_params]; exact hp, ?_⟩
    rw [fit_warnings_eq]
    rcases hw with hw | hw
    · exact Or.inl (by rw [hw]; simp)
    · exact Or.inr (by rw [hw]; simp)
  · rw [fit_image_x_params, hxp h]
  · obtain ⟨hp, hw⟩ := hyr h
    refine ⟨by rw [fit_image_y_params]; exact hp, ?_⟩
    rw [fit_warnings_eq]
    rcases hw with hw | hw
    · exact Or.inl (by rw [hw]; simp)
    · exact Or.inr (by rw [hw]; simp)
  · rw [fit_image_y_params, hyp h]

/-- Witness for C3: `lowModel` on `img4` trips the signal-to-noise
rule on the x axis (amplitude 1, residual variance 3/16, so
`noise_std × 4 = √(3/16) × 4 > 1`): every x parameter is NaN and an
x warning is emitted. -/
theorem C3_witness :
    (fit_image lowModel G0 defaultConfig img4).x_projection_fit_parameters = nanParams ∧
    (lowAmpMsg "x" ∈ fit_warnings lowModel G0 defaultConfig img4 ∨
     tooBigMsg "x" ∈ fit_warnings lowModel G0 defaultConfig img4) := by
  have hsqrt : ((1 : ℚ) : ℝ) <
      Real.sqrt (((3 : ℚ) / 16 : ℚ) : ℝ) * ((4 : ℚ) : ℝ) := by
    have h14 : (1 / 4 : ℝ) < Real.sqrt (3 / 16) := by
      rw [Real.lt_sqrt (by norm_num)]
      norm_num
    push_cast
    nlinarith [h14]
  have hamp : (fit_projection lowModel G0 defaultConfig.relative_filter_size
      (x_projection img4)).amplitude = some 1 := by
    rw [low_p0]
  exact (C3_fit_image_validation lowModel G0 defaultConfig img4 (by norm_num [defaultConfig])).1
    (Or.inl ⟨1, 3 / 16, hamp, low_nv, hsqrt⟩)

/-! ### Saver claims -/

theorem recursive_save_children_append (a b : List (String × PyVal)) :
    (recursive_save (a ++ b)).2 = (recursive_save a).2 ++ (recursive_save b).2 := by
  induction a with
  | nil => simp [recursive_save]
  | cons e rest ih =>
    obtain ⟨k, v⟩ := e
    by_cases hk : k = "attrs"
    · simp [recursive_save, hk, ih]
    · simp only [List.cons_append, recursive_save, if_neg hk]
      cases saveVal v <;> simp [ih]

theorem collectAttrs_append (a b : List (String × PyVal)) :
    collectAttrs (a ++ b) = collectAttrs a ++ collectAttrs b := by
  induction a with
  | nil => simp [collectAttrs]
  | cons e rest ih =>
    obtain ⟨k, v⟩ := e
    by_cases hk : k = "attrs"
    · simp [collectAttrs, hk, ih]
    · simp [collectAttrs, hk, ih]

theorem transformRest_append (a b : List (String × PyVal)) :
    transformRest (a ++ b) = transformRest a ++ transformRest b := by
  induction a with
  | nil => simp [transformRest]
  | cons e rest ih =>
    obtain ⟨k, v⟩ := e
    by_cases hk : k = "attrs"
    · simp [transformRest, hk, ih]
    · simp only [List.cons_append, transformRest, if_neg hk]
      cases transformVal v <;> simp [ih]

/-- The spec's positive round-trip scenario holds as stated when no
string list and no misplaced `"attrs"` key is involved: a nested
mapping with a NaN-valued parameter entry, a 2×2 array and a scalar
reloads equal to itself, NaN included. -/
theorem c5good_roundtrip : load_from_h5 (save_to_h5 c5good) = c5good := by
  rw [load_save_roundtrip]
  simp [c5good, transformEntries, collectAttrs, transformRest, transformVal,
    attrsEntry, loadNum, numScalar]

/-- C10: `save_to_h5` creates no dataset or group for a key holding a
numpy array of object dtype — the key is silently dropped and absent
after reloading — whereas a value of any other unsupported type is
stored as a dataset holding its `str()` representation and reloads as
that string. -/
theorem C10_unsupported_values (pre post : List (String × PyVal)) (k k2 : String)
    (knd : NKind) (shp : List ℕ) (dat : List RVal) (s : String)
    (hk : k ≠ "attrs") (hk2 : k2 ≠ "attrs") :
    (save_to_h5 (pre ++ (k, PyVal.nparr true knd shp dat) :: (k2, PyVal.pyother s) :: post)).2 =
      (save_to_h5 pre).2 ++ (k2, H5Node.dstr s) :: (save_to_h5 post).2 ∧
    load_from_h5
        (save_to_h5 (pre ++ (k, PyVal.nparr true knd shp dat) :: (k2, PyVal.pyother s) :: post)) =
      attrsEntry (collectAttrs (pre ++ post)) ++
        (transformRest pre ++ (k2, PyVal.pystr s) :: transformRest post) := by
  have e1 : collectAttrs ((k, PyVal.nparr true knd shp dat) :: (k2, PyVal.pyother s) :: post) =
      collectAttrs post := by
    simp [collectAttrs, hk, hk2]
  have e2 : transformRest ((k, PyVal.nparr true knd shp dat) :: (k2, PyVal.pyother s) :: post) =
      (k2, PyVal.pystr s) :: transformRest post := by
    simp [transformRest, hk, hk2, transformVal]
  constructor
  · rw [save_to_h5, save_to_h5, save_to_h5, recursive_save_children_append]
    congr 1
    simp [recursive_save, if_neg hk, if_neg hk2, saveVal]
  · rw [load_save_roundtrip, transformEntries, collectAttrs_append, transformRest_append,
      e1, e2, collectAttrs_append]

/-- Witness for C10: the object-dtype array under `"bad"` is absent
from the saved children and from the reloaded dictionary, while the
unsupported object under `"o"` is stored and reloaded as its string. -/
theorem C10_witness :
    (save_to_h5 [("z", PyVal.pyint 1), ("bad", PyVal.nparr true NKind.kint [1] [some 1]),
        ("o", PyVal.pyother "obj")]).2 =
      (save_to_h5 [("z", PyVal.pyint 1)]).2 ++
        ("o", H5Node.dstr "obj") :: (save_to_h5 ([] : List (String × PyVal))).2 ∧
    load_from_h5
        (save_to_h5 [("z", PyVal.pyint 1), ("bad", PyVal.nparr true NKind.kint [1] [some 1]),
          ("o", PyVal.pyother "obj")]) =
      attrsEntry (collectAttrs ([("z", PyVal.pyint 1)] ++ ([] : List (String × PyVal)))) ++
        (transformRest [("z", PyVal.pyint 1)] ++
          ("o", PyVal.pystr "obj") :: transformRest ([] : List (String × PyVal))) :=
  C10_unsupported_values [("z", PyVal.pyint 1)] [] "bad" "o" NKind.kint [1] [some 1] "obj"
    (by decide) (by decide)
